import Mathlib

/-!
Shallow embedding of `src/services/geminiService.ts` (the WITTI answer
service): module initialization of the Gemini client, the humorous prompt
builder, and the API-call wrapper with its response validation and
error-message classification.  The provider is modelled as an oracle
mapping the sent prompt to an outcome; side effects (network calls,
console logging) are made explicit in the returned `CallResult`.
-/

set_option maxRecDepth 4000

namespace Witti

/-- Fixed messages from the source, in order of appearance. -/
def missingKeyMsg : String :=
  "Gemini API Key (process.env.API_KEY) is missing, not a string, or empty. Please ensure it is configured in the environment."

def genericInitMsg : String :=
  "An unexpected error occurred during GoogleGenAI initialization."

def clientNotInitMsg : String :=
  "Gemini AI client is not initialized. This may be due to a missing or invalid API key, or an initialization error."

def formatErrMsg : String :=
  "The AI's response was not in the expected text format."

def invalidKeyMsg : String :=
  "Gemini API Key is invalid or lacks permissions. Please check your API_KEY and project settings."

def quotaMsg : String :=
  "API quota exceeded. Please check your Gemini project quota or try again later."

def modelNotFoundMsg : String :=
  "The specified AI model was not found. Please check the model name."

def commErrMsg : String :=
  "Failed to generate answer due to an API communication error."

/-- JavaScript truthiness of an optional string-valued `message` property:
`undefined` and the empty string are falsy. -/
def errTruthy : Option String → Bool
  | none => false
  | some m => m != ""

/-- `listPre n l` : `n` is a prefix of `l` (over characters). -/
def listPre : List Char → List Char → Bool
  | [], _ => true
  | _ :: _, [] => false
  | a :: as, b :: bs => a == b && listPre as bs

/-- `listSub n l` : `n` occurs contiguously somewhere in `l`;
models JavaScript `String.prototype.includes`. -/
def listSub (n : List Char) : List Char → Bool
  | [] => n.isEmpty
  | c :: rest => listPre n (c :: rest) || listSub n rest

/-- `hay.includes(needle)` on strings. -/
def strContains (hay needle : String) : Bool :=
  listSub needle.data hay.data

/-- `s.toLowerCase()` (ASCII, which covers every message classified here). -/
def strToLower (s : String) : String :=
  ⟨s.data.map Char.toLower⟩

/-- Drop leading whitespace characters. -/
def dropWhileWs : List Char → List Char
  | [] => []
  | c :: r => if c.isWhitespace then dropWhileWs r else c :: r

/-- `s.trim()`: remove leading and trailing whitespace. -/
def strTrim (s : String) : String :=
  ⟨(dropWhileWs (dropWhileWs s.data).reverse).reverse⟩

/-- An exception value thrown during client construction: either a real
`Error` object with its message, or an arbitrary value whose `message`
property may be absent or falsy. -/
inductive JsError where
  | errObj (message : String)
  | other (message : Option String)
deriving DecidableEq

/-- How the module-load `catch` block turns a construction exception into
the stored initialization error message:
`e instanceof Error ? e : new Error(String(e.message || generic))`. -/
def wrapInitError : JsError → String
  | JsError.errObj m => m
  | JsError.other mo => if errTruthy mo then mo.getD "" else genericInitMsg

/-- The two module-level slots `ai` and `apiKeyInitializationError`.
`ai` holds the API key the client was constructed with (the handle is
opaque); the error slot holds the stored error's message. -/
structure InitState where
  ai : Option String
  apiKeyInitializationError : Option String
deriving DecidableEq

/-- The module-load try/catch: read `process.env.API_KEY` (an optional
string), reject it when absent or whitespace-only, otherwise construct the
client; `constructResult k = some e` means `new GoogleGenAI` threw `e`. -/
def initModule (apiKeyFromEnv : Option String) (constructResult : String → Option JsError) : InitState :=
  match apiKeyFromEnv with
  | none => ⟨none, some missingKeyMsg⟩
  | some k =>
    if strTrim k = "" then ⟨none, some missingKeyMsg⟩
    else
      match constructResult k with
      | none => ⟨some k, none⟩
      | some e => ⟨none, some (wrapInitError e)⟩

/-- Outcome of one `ai.models.generateContent` round trip: a response
whose `text` field is a string or `undefined`, or a thrown error whose
`message` property may be absent. -/
inductive ProviderOutcome where
  | success (text : Option String)
  | failure (message : Option String)
deriving DecidableEq

/-- The error-classification logic of the `catch` block in
`callGeminiAPI`: truthy message → substring matching (case-insensitive)
in source order, else the generic communication error. -/
def classifyError (message : Option String) : String :=
  if errTruthy message then
    let m := message.getD ""
    let lower := strToLower m
    if strContains lower "api key not valid" || strContains lower "permission denied" then
      invalidKeyMsg
    else if strContains lower "quota" then
      quotaMsg
    else if strContains lower "model not found" then
      modelNotFoundMsg
    else
      m
  else
    commErrMsg

deriving instance DecidableEq for Except

/-- Observable effect of one call to `callGeminiAPI`: the settled result,
the prompts actually sent over the network (in order), and whether
`console.warn` / the catch-block `console.error` fired. -/
structure CallResult where
  result : Except String String
  sentPrompts : List String
  warned : Bool
  loggedError : Bool
deriving DecidableEq

/-- `callGeminiAPI(promptContent)` with the provider as an oracle.  The
non-string-text branch throws `formatErrMsg` inside the `try`, so it is
routed through the same `catch` classification as provider failures. -/
def callGeminiAPI (st : InitState) (provider : String → ProviderOutcome) (promptContent : String) : CallResult :=
  match st.apiKeyInitializationError with
  | some e => ⟨Except.error e, [], false, false⟩
  | none =>
    match st.ai with
    | none => ⟨Except.error clientNotInitMsg, [], false, false⟩
    | some _ =>
      match provider promptContent with
      | ProviderOutcome.success (some t) => ⟨Except.ok (strTrim t), [promptContent], false, false⟩
      | ProviderOutcome.success none =>
          ⟨Except.error (classifyError (some formatErrMsg)), [promptContent], true, true⟩
      | ProviderOutcome.failure mo =>
          ⟨Except.error (classifyError mo), [promptContent], false, true⟩

/-- The fixed template text before the interpolated question. -/
def promptPre : String :=
  "\nYou are an AI that specializes in delivering extremely short, punchy, and hilariously absurd \"quick quips\" in response to questions. Your answers should be 5 words or less. They should sound confident but be outrageously funny, often by being blatantly false, misleading, or a complete non-sequitur, yet delivered as if it's a profound, albeit brief, truth. The humor should be sharp and unexpected. Lean heavily towards comedic falsehoods.\n\nUser's question: \""

/-- The fixed template text after the interpolated question. -/
def promptSuf : String :=
  "\"\n\nDeliver your quick quip (5 words or less, hilariously absurd/false, confident tone) as plain text:\n  "

/-- `createShortHumorousPrompt`. -/
def createShortHumorousPrompt (question : String) : String :=
  promptPre ++ question ++ promptSuf

/-- `generateShortWittiHumorousAnswer`. -/
def generateShortWittiHumorousAnswer (st : InitState) (provider : String → ProviderOutcome) (question : String) : CallResult :=
  callGeminiAPI st provider (createShortHumorousPrompt question)

/-- Process-lifetime phases of the module state. -/
inductive ProcPhase where
  | uninitialized
  | ready (st : InitState)
  | permanentlyFailed (st : InitState)
deriving DecidableEq

/-- Events: the one-time module load, and calls to the answer service. -/
inductive ProcEvent where
  | load (apiKeyFromEnv : Option String) (constructResult : String → Option JsError)
  | call (provider : String → ProviderOutcome) (question : String)

/-- Process state machine: the load event is only effective from
`uninitialized`; a call never writes the module slots. -/
def procStep : ProcPhase → ProcEvent → ProcPhase
  | ProcPhase.uninitialized, ProcEvent.load env c =>
      let st := initModule env c
      if st.apiKeyInitializationError.isNone then ProcPhase.ready st
      else ProcPhase.permanentlyFailed st
  | s, _ => s

/-! ## Substring lemmas -/

theorem listSub_nil_needle (l : List Char) : listSub [] l = true := by
  cases l with
  | nil => rfl
  | cons c r => simp [listSub, listPre]

theorem listPre_self_append (n rest : List Char) : listPre n (n ++ rest) = true := by
  induction n with
  | nil => rfl
  | cons a as ih => simp [listPre, ih]

theorem listSub_self_append (n rest : List Char) : listSub n (n ++ rest) = true := by
  cases n with
  | nil => exact listSub_nil_needle rest
  | cons a as =>
    simp [listSub]
    exact Or.inl (listPre_self_append (a :: as) rest)

theorem listPre_extend (n l m : List Char) (h : listPre n l = true) : listPre n (l ++ m) = true := by
  induction n generalizing l with
  | nil => rfl
  | cons a as ih =>
    cases l with
    | nil => simp [listPre] at h
    | cons b bs =>
      simp [listPre] at h ⊢
      exact ⟨h.1, ih bs h.2⟩

theorem listSub_extend_right (n l m : List Char) (h : listSub n l = true) : listSub n (l ++ m) = true := by
  induction l with
  | nil =>
    simp [listSub, List.isEmpty_iff] at h
    subst h
    exact listSub_nil_needle m
  | cons c cs ih =>
    simp [listSub] at h ⊢
    cases h with
    | inl hp =>
      left
      have := listPre_extend n (c :: cs) m hp
      simpa using this
    | inr hs => exact Or.inr (ih hs)

theorem listSub_extend_left (n l m : List Char) (h : listSub n m = true) : listSub n (l ++ m) = true := by
  induction l with
  | nil => simpa using h
  | cons c cs ih => simp [listSub, ih]

theorem strContains_mid (a b c : String) : strContains (a ++ b ++ c) b = true := by
  unfold strContains
  have hd : (a ++ b ++ c).data = a.data ++ (b.data ++ c.data) := by
    simp [String.data_append]
  rw [hd]
  exact listSub_extend_left _ _ _ (listSub_self_append _ _)

theorem strContains_left (a b c : String) (h : strContains a c = true) :
    strContains (a ++ b) c = true := by
  unfold strContains at h ⊢
  rw [String.data_append]
  exact listSub_extend_right _ _ _ h

theorem strContains_right (a b c : String) (h : strContains b c = true) :
    strContains (a ++ b) c = true := by
  unfold strContains at h ⊢
  rw [String.data_append]
  exact listSub_extend_left _ _ _ h

/-! ## Reduction lemmas for the call wrapper -/

theorem callGeminiAPI_init_error (st : InitState) (provider : String → ProviderOutcome)
    (p e : String) (h : st.apiKeyInitializationError = some e) :
    callGeminiAPI st provider p = ⟨Except.error e, [], false, false⟩ := by
  obtain ⟨a, err⟩ := st
  simp only [InitState.apiKeyInitializationError] at h
  subst h
  rfl

theorem callGeminiAPI_ready (st : InitState) (provider : String → ProviderOutcome) (p k : String)
    (herr : st.apiKeyInitializationError = none) (hai : st.ai = some k) :
    callGeminiAPI st provider p =
      (match provider p with
       | ProviderOutcome.success (some t) => ⟨Except.ok (strTrim t), [p], false, false⟩
       | ProviderOutcome.success none =>
           ⟨Except.error (classifyError (some formatErrMsg)), [p], true, true⟩
       | ProviderOutcome.failure mo =>
           ⟨Except.error (classifyError mo), [p], false, true⟩) := by
  obtain ⟨a, err⟩ := st
  simp only [InitState.apiKeyInitializationError, InitState.ai] at herr hai
  subst herr hai
  rfl

theorem classifyError_nontruthy_eq (mo : Option String) (h : errTruthy mo = false) :
    classifyError mo = commErrMsg := by
  simp [classifyError, h]

theorem prompt_contains_question (q : String) :
    strContains (createShortHumorousPrompt q) q = true :=
  strContains_mid promptPre q promptSuf

theorem initModule_exactly_one (env : Option String) (c : String → Option JsError) :
    ((initModule env c).ai.isSome = true ∧ (initModule env c).apiKeyInitializationError = none) ∨
    ((initModule env c).ai = none ∧ (initModule env c).apiKeyInitializationError.isSome = true) := by
  unfold initModule
  cases env with
  | none => exact Or.inr ⟨rfl, rfl⟩
  | some k =>
    by_cases htrim : strTrim k = ""
    · simp only [htrim, if_pos rfl]
      exact Or.inr ⟨rfl, rfl⟩
    · simp only [if_neg htrim]
      cases c k with
      | none => exact Or.inl ⟨rfl, rfl⟩
      | some e => exact Or.inr ⟨rfl, rfl⟩

/-! ## Claim theorems -/

/-- C1: if the stored initialization error is set, every call to
`generateShortWittiHumorousAnswer` rejects immediately with exactly that
error, sends no prompt to the provider (no network attempt), and does so
regardless of the handle slot and of what the provider would have
answered — the check precedes the missing-handle check and the call. -/
theorem init_error_short_circuits (st : InitState) (provider : String → ProviderOutcome)
    (q e : String) (h : st.apiKeyInitializationError = some e) :
    generateShortWittiHumorousAnswer st provider q = ⟨Except.error e, [], false, false⟩ :=
  callGeminiAPI_init_error st provider _ e h

theorem init_error_short_circuits_witness :
    (initModule none (fun _ => none)).apiKeyInitializationError = some missingKeyMsg ∧
    generateShortWittiHumorousAnswer (initModule none (fun _ => none))
      (fun _ => ProviderOutcome.failure none) "Why?" =
        ⟨Except.error missingKeyMsg, [], false, false⟩ :=
  ⟨rfl, init_error_short_circuits _ _ _ _ rfl⟩

/-- C2: provider exceptions with a non-empty message are classified by
case-insensitive substring match in priority order: invalid-credential
(message has api key not valid, or permission denied), then quota, then
model not found. -/
theorem error_classification_priority (st : InitState) (provider : String → ProviderOutcome)
    (q m k : String) (herr : st.apiKeyInitializationError = none) (hai : st.ai = some k)
    (hm : m ≠ "")
    (hprov : provider (createShortHumorousPrompt q) = ProviderOutcome.failure (some m)) :
    ((strContains (strToLower m) "api key not valid" ||
        strContains (strToLower m) "permission denied") = true →
      (generateShortWittiHumorousAnswer st provider q).result = Except.error invalidKeyMsg) ∧
    ((strContains (strToLower m) "api key not valid" ||
        strContains (strToLower m) "permission denied") = false →
      strContains (strToLower m) "quota" = true →
      (generateShortWittiHumorousAnswer st provider q).result = Except.error quotaMsg) ∧
    ((strContains (strToLower m) "api key not valid" ||
        strContains (strToLower m) "permission denied") = false →
      strContains (strToLower m) "quota" = false →
      strContains (strToLower m) "model not found" = true →
      (generateShortWittiHumorousAnswer st provider q).result = Except.error modelNotFoundMsg) := by
  unfold generateShortWittiHumorousAnswer
  rw [callGeminiAPI_ready st provider _ k herr hai, hprov]
  refine ⟨fun h1 => ?_, fun h1 h2 => ?_, fun h1 h2 h3 => ?_⟩ <;>
    simp [classifyError, errTruthy, hm, h1, *]

theorem error_classification_priority_witness :
    (generateShortWittiHumorousAnswer (initModule (some "key") (fun _ => none))
      (fun _ => ProviderOutcome.failure (some "api key NOT valid")) "Why?").result =
      Except.error invalidKeyMsg := by
  have h := error_classification_priority (initModule (some "key") (fun _ => none))
    (fun _ => ProviderOutcome.failure (some "api key NOT valid")) "Why?"
    "api key NOT valid" "key" rfl rfl (by decide) rfl
  exact h.1 (by decide)

/-- C3: module load sets exactly one of the client handle and the stored
initialization error (never both, never neither), moving the process from
uninitialized to ready or permanently-failed, and no later call to the
answer service ever changes the phase. -/
theorem one_time_initialization (env : Option String) (c : String → Option JsError) :
    (∃ st : InitState,
      (procStep ProcPhase.uninitialized (ProcEvent.load env c) = ProcPhase.ready st ∧
        st.ai.isSome = true ∧ st.apiKeyInitializationError = none) ∨
      (procStep ProcPhase.uninitialized (ProcEvent.load env c) = ProcPhase.permanentlyFailed st ∧
        st.ai = none ∧ st.apiKeyInitializationError.isSome = true)) ∧
    (∀ (provider : String → ProviderOutcome) (q : String) (ph : ProcPhase),
      procStep ph (ProcEvent.call provider q) = ph) := by
  constructor
  · refine ⟨initModule env c, ?_⟩
    obtain h | h := initModule_exactly_one env c
    · exact Or.inl ⟨by simp [procStep, h.2], h.1, h.2⟩
    · obtain ⟨e, he⟩ := Option.isSome_iff_exists.mp h.2
      exact Or.inr ⟨by simp [procStep, he], h.1, h.2⟩
  · intro provider q ph
    cases ph <;> rfl

/-- C4: when the provider responds with a string text payload, the call
resolves with that string trimmed of leading and trailing whitespace
(and the one prompt was sent, with no warnings logged). -/
theorem success_response_trimmed (st : InitState) (provider : String → ProviderOutcome)
    (q t k : String) (herr : st.apiKeyInitializationError = none) (hai : st.ai = some k)
    (hprov : provider (createShortHumorousPrompt q) = ProviderOutcome.success (some t)) :
    generateShortWittiHumorousAnswer st provider q =
      ⟨Except.ok (strTrim t), [createShortHumorousPrompt q], false, false⟩ := by
  unfold generateShortWittiHumorousAnswer
  rw [callGeminiAPI_ready st provider _ k herr hai, hprov]

theorem success_response_trimmed_witness :
    generateShortWittiHumorousAnswer (initModule (some "key") (fun _ => none))
      (fun _ => ProviderOutcome.success (some "  Obviously not.  ")) "Why?" =
      ⟨Except.ok "Obviously not.", [createShortHumorousPrompt "Why?"], false, false⟩ := by
  have h := success_response_trimmed (initModule (some "key") (fun _ => none))
    (fun _ => ProviderOutcome.success (some "  Obviously not.  ")) "Why?"
    "  Obviously not.  " "key" rfl rfl rfl
  rw [h]
  decide

/-- C5: when the provider responds but the text payload is not a string
(undefined), the call logs a warning and rejects with the message saying
the response was not in the expected text format. -/
theorem nonstring_text_rejects (st : InitState) (provider : String → ProviderOutcome)
    (q k : String) (herr : st.apiKeyInitializationError = none) (hai : st.ai = some k)
    (hprov : provider (createShortHumorousPrompt q) = ProviderOutcome.success none) :
    (generateShortWittiHumorousAnswer st provider q).result = Except.error formatErrMsg ∧
    (generateShortWittiHumorousAnswer st provider q).warned = true := by
  unfold generateShortWittiHumorousAnswer
  rw [callGeminiAPI_ready st provider _ k herr hai, hprov]
  have hc : classifyError (some formatErrMsg) = formatErrMsg := by decide
  exact ⟨congrArg Except.error hc, rfl⟩

theorem nonstring_text_rejects_witness :
    (generateShortWittiHumorousAnswer (initModule (some "key") (fun _ => none))
      (fun _ => ProviderOutcome.success none) "Why?").result = Except.error formatErrMsg ∧
    (generateShortWittiHumorousAnswer (initModule (some "key") (fun _ => none))
      (fun _ => ProviderOutcome.success none) "Why?").warned = true :=
  nonstring_text_rejects (initModule (some "key") (fun _ => none))
    (fun _ => ProviderOutcome.success none) "Why?" "key" rfl rfl rfl

/-- C6: a provider exception whose non-empty message matches none of the
classified substrings (case-insensitively) is passed through: the call
rejects with exactly the original message. -/
theorem unclassified_message_passthrough (st : InitState) (provider : String → ProviderOutcome)
    (q m k : String) (herr : st.apiKeyInitializationError = none) (hai : st.ai = some k)
    (hm : m ≠ "")
    (h1 : strContains (strToLower m) "api key not valid" = false)
    (h2 : strContains (strToLower m) "permission denied" = false)
    (h3 : strContains (strToLower m) "quota" = false)
    (h4 : strContains (strToLower m) "model not found" = false)
    (hprov : provider (createShortHumorousPrompt q) = ProviderOutcome.failure (some m)) :
    (generateShortWittiHumorousAnswer st provider q).result = Except.error m := by
  unfold generateShortWittiHumorousAnswer
  rw [callGeminiAPI_ready st provider _ k herr hai, hprov]
  simp [classifyError, errTruthy, hm, h1, h2, h3, h4]

theorem unclassified_message_passthrough_witness :
    (generateShortWittiHumorousAnswer (initModule (some "key") (fun _ => none))
      (fun _ => ProviderOutcome.failure (some "Some obscure network blip")) "Why?").result =
      Except.error "Some obscure network blip" :=
  unclassified_message_passthrough (initModule (some "key") (fun _ => none))
    (fun _ => ProviderOutcome.failure (some "Some obscure network blip")) "Why?"
    "Some obscure network blip" "key" rfl rfl (by decide)
    (by decide) (by decide) (by decide) (by decide) rfl

/-- C7: a provider exception with no message property at all makes the
call reject with the fixed generic communication-error message. -/
theorem no_message_generic_error (st : InitState) (provider : String → ProviderOutcome)
    (q k : String) (herr : st.apiKeyInitializationError = none) (hai : st.ai = some k)
    (hprov : provider (createShortHumorousPrompt q) = ProviderOutcome.failure none) :
    (generateShortWittiHumorousAnswer st provider q).result = Except.error commErrMsg := by
  unfold generateShortWittiHumorousAnswer
  rw [callGeminiAPI_ready st provider _ k herr hai, hprov]
  simp [classifyError_nontruthy_eq none rfl]

theorem no_message_generic_error_witness :
    (generateShortWittiHumorousAnswer (initModule (some "key") (fun _ => none))
      (fun _ => ProviderOutcome.failure none) "Why?").result = Except.error commErrMsg :=
  no_message_generic_error (initModule (some "key") (fun _ => none))
    (fun _ => ProviderOutcome.failure none) "Why?" "key" rfl rfl rfl

/-- C8: the prompt builder is a pure function: identical output on a
repeated call, the question embedded verbatim, and the fixed instruction
fragments (5 words or less, confident, false, plain text) always
present. -/
theorem prompt_builder_pure (q : String) :
    createShortHumorousPrompt q = createShortHumorousPrompt q ∧
    strContains (createShortHumorousPrompt q) q = true ∧
    strContains (createShortHumorousPrompt q) "5 words or less" = true ∧
    strContains (createShortHumorousPrompt q) "confident" = true ∧
    strContains (createShortHumorousPrompt q) "false" = true ∧
    strContains (createShortHumorousPrompt q) "plain text" = true := by
  refine ⟨rfl, prompt_contains_question q, ?_, ?_, ?_, ?_⟩
  · exact strContains_left _ promptSuf _ (strContains_left promptPre q _ (by decide))
  · exact strContains_left _ promptSuf _ (strContains_left promptPre q _ (by decide))
  · exact strContains_left _ promptSuf _ (strContains_left promptPre q _ (by decide))
  · exact strContains_right (promptPre ++ q) promptSuf _ (by decide)

/-- C9: a provider exception whose message property is the empty string
(falsy) is treated exactly like an absent message: the call rejects with
the generic communication-error message. -/
theorem empty_message_generic_error (st : InitState) (provider : String → ProviderOutcome)
    (q k : String) (herr : st.apiKeyInitializationError = none) (hai : st.ai = some k)
    (hprov : provider (createShortHumorousPrompt q) = ProviderOutcome.failure (some "")) :
    (generateShortWittiHumorousAnswer st provider q).result = Except.error commErrMsg := by
  unfold generateShortWittiHumorousAnswer
  rw [callGeminiAPI_ready st provider _ k herr hai, hprov]
  simp [classifyError_nontruthy_eq (some "") rfl]

theorem empty_message_generic_error_witness :
    (generateShortWittiHumorousAnswer (initModule (some "key") (fun _ => none))
      (fun _ => ProviderOutcome.failure (some "")) "Why?").result = Except.error commErrMsg :=
  empty_message_generic_error (initModule (some "key") (fun _ => none))
    (fun _ => ProviderOutcome.failure (some "")) "Why?" "key" rfl rfl rfl

/-- C10: the service never validates the question: for every question
string, the empty string included, it sends exactly one prompt embedding
the question verbatim to the provider and never rejects on account of the
question itself. -/
theorem no_question_validation (st : InitState) (provider : String → ProviderOutcome)
    (q k : String) (herr : st.apiKeyInitializationError = none) (hai : st.ai = some k) :
    (generateShortWittiHumorousAnswer st provider q).sentPrompts =
      [createShortHumorousPrompt q] ∧
    strContains (createShortHumorousPrompt q) q = true := by
  refine ⟨?_, prompt_contains_question q⟩
  unfold generateShortWittiHumorousAnswer
  rw [callGeminiAPI_ready st provider _ k herr hai]
  cases provider (createShortHumorousPrompt q) with
  | success t => cases t <;> rfl
  | failure mo => rfl

theorem no_question_validation_witness :
    (generateShortWittiHumorousAnswer (initModule (some "key") (fun _ => none))
      (fun _ => ProviderOutcome.success (some "ok")) "").sentPrompts =
      [createShortHumorousPrompt ""] ∧
    strContains (createShortHumorousPrompt "") "" = true :=
  no_question_validation (initModule (some "key") (fun _ => none))
    (fun _ => ProviderOutcome.success (some "ok")) "" "key" rfl rfl

end Witti
